import Mathlib

/-!
Shallow embedding of the tiered request dispatcher of the spl402-OpenRouter
server (src/server/services/openrouter.service.ts and
src/server/routes/ai.routes.ts).

Modelling conventions:
- JavaScript `undefined`/missing fields are `Option.none`; the JS `x || d`
  idiom on strings treats both `undefined` and the empty string as falsy,
  and on numbers treats both `undefined` and `0` as falsy; the helpers
  `jsOr`, `jsOrNat`, `jsTruthy`, `jsTokenBound` embed exactly that.
- The two external transports are oracles supplied as arguments: the SDK
  client (`Env.primary`, modelling `this.getClient().chat.send`) and the
  direct REST call (`Env.fetch`, modelling the `fetch` call of
  `chatCompletionFallback`, keyed on the request body that the loop builds).
- Exceptions are `Except String`, carrying the thrown error message.
-/

/-- JS `x || d` on an optional string: `undefined` and `""` are falsy. -/
def jsOr : Option String → String → String
  | none, d => d
  | some s, d => if s = "" then d else s

/-- JS `x || d` on an optional number: `undefined` and `0` are falsy. -/
def jsOrNat : Option Nat → Nat → Nat
  | none, d => d
  | some n, d => if n = 0 then d else n

/-- JS truthiness of an optional string field (`!x` is true iff this is false). -/
def jsTruthy : Option String → Bool
  | none => false
  | some s => s != ""

/-- JS spread idiom `...(request.maxTokens && { maxTokens: request.maxTokens })`:
the field is included iff the bound is defined and nonzero. -/
def jsTokenBound : Option Nat → Option Nat
  | none => none
  | some n => if n = 0 then none else some n

/-- One typed part of a multimodal message: `{ type: 'text', text }` or
`{ type: 'image_url', image_url: { url } }`. -/
inductive ContentPart
  | textPart (text : String)
  | imagePart (url : String)
  deriving DecidableEq, Repr

/-- Message content: plain text or an ordered list of typed parts. -/
inductive MessageContent
  | text (s : String)
  | parts (l : List ContentPart)
  deriving DecidableEq, Repr

/-- A chat message (`{ role, content }`). -/
structure Message where
  role : String
  content : MessageContent
  deriving DecidableEq, Repr

/-- Usage counters of a provider response; each counter may be absent.
The SDK path reads camelCase keys (`totalTokens`, ...) and the REST path
reads snake_case keys (`total_tokens`, ...) of the same shape, so one
record embeds both. -/
structure Usage where
  totalTokens : Option Nat
  promptTokens : Option Nat
  completionTokens : Option Nat
  deriving DecidableEq, Repr

/-- One completion choice; `content` is `choice.message.content`, possibly
absent. -/
structure Choice where
  content : Option String
  deriving DecidableEq, Repr

/-- A provider response body (SDK object or parsed REST JSON): a choice
list (absent `choices` collapses to `[]`, which fails the same
`!data.choices || !data.choices[0]` check), an optional reported model
identifier, and optional usage counters. -/
structure SdkResponse where
  choices : List Choice
  model : Option String
  usage : Option Usage
  deriving DecidableEq, Repr

/-- The `AIRequest` interface of openrouter.service.ts. The tier is kept as
a raw string because `getModelForTier(tier: string)` accepts any string. -/
structure AIRequest where
  messages : List Message
  tier : String
  maxTokens : Option Nat := none
  stream : Bool := false
  deriving DecidableEq, Repr

/-- The normalized `AIResponse` shape: every field present and typed. -/
structure AIResponse where
  content : String
  model : String
  tokensUsed : Nat
  promptTokens : Nat
  completionTokens : Nat
  deriving DecidableEq, Repr

/-- `TIER_MODELS.free`. -/
def TIER_MODELS_free : String := "mistralai/mistral-7b-instruct:free"

/-- The `TIER_MODELS` record as a keyed lookup over its own properties
only; the full JS property access, prototype chain included, is
`TIER_MODELS_access` below. -/
def TIER_MODELS : String → Option String := fun tier =>
  if tier = "free" then some TIER_MODELS_free
  else if tier = "premium" then some "openai/gpt-4o-mini"
  else if tier = "ultra-premium" then some "anthropic/claude-3.5-sonnet"
  else if tier = "enterprise" then some "anthropic/claude-3.7-sonnet"
  else none

/-- The `FREE_MODEL_FALLBACKS` constant. -/
def FREE_MODEL_FALLBACKS : List String :=
  ["mistralai/mistral-7b-instruct:free",
   "google/gemini-2.0-flash-exp:free",
   "nousresearch/hermes-3-llama-3.1-405b:free",
   "microsoft/phi-3-mini-128k-instruct:free"]

/-- `getModelForTier`: `TIER_MODELS[tier] || TIER_MODELS.free`, restricted
to own-property lookups (exact for every tier string that is not an
`Object.prototype` member name; `getModelForTierJs` below embeds the full
JS semantics). -/
def getModelForTier (tier : String) : String :=
  jsOr (TIER_MODELS tier) TIER_MODELS_free

/-- Result of a JS property access on a plain object whose own values are
strings: `undefined` (no such property), an own string value, or a member
inherited from `Object.prototype` (a method, or the `__proto__` accessor
value) named by its key. -/
inductive JsLookup
  | undefined
  | ownString (s : String)
  | protoMember (key : String)
  deriving DecidableEq, Repr

/-- JS truthiness of a lookup result: `undefined` is falsy, a string is
falsy iff empty, and every inherited `Object.prototype` member is truthy
(functions and objects are truthy). -/
def JsLookup.truthy : JsLookup → Bool
  | .undefined => false
  | .ownString s => s != ""
  | .protoMember _ => true

/-- The property names every plain object literal inherits from
`Object.prototype`, all bound to truthy values. -/
def objectPrototypeKeys : List String :=
  ["constructor", "hasOwnProperty", "isPrototypeOf", "propertyIsEnumerable",
   "toLocaleString", "toString", "valueOf", "__proto__",
   "__defineGetter__", "__defineSetter__", "__lookupGetter__",
   "__lookupSetter__"]

/-- The full JS property access `TIER_MODELS[tier]`, prototype chain
included: the four own keys yield their string values, an
`Object.prototype` member name yields the inherited truthy member, and
every other string yields `undefined`. The TS cast
`tier as keyof typeof TIER_MODELS` is erased at runtime, so this access
really happens for arbitrary `tier` strings. -/
def TIER_MODELS_access (tier : String) : JsLookup :=
  match TIER_MODELS tier with
  | some s => .ownString s
  | none =>
    if tier ∈ objectPrototypeKeys then .protoMember tier
    else .undefined

/-- `getModelForTier` under full JS semantics:
`TIER_MODELS[tier] || TIER_MODELS.free` evaluates to the lookup result
when truthy, else to the free default -- so an `Object.prototype` member
name yields the inherited member, not the free default (the declared
`string` return type is not enforced at runtime). -/
def getModelForTierJs (tier : String) : JsLookup :=
  if (TIER_MODELS_access tier).truthy then TIER_MODELS_access tier
  else .ownString TIER_MODELS_free

/-- The normalization block shared (textually duplicated in the source) by
`chatCompletion`, `chatCompletionFallback` and `multimodalAnalysis`:
content defaults to `""`, model falls back to the requested identifier,
token counters default to `0`. -/
def normalizeResponse (requestedModel : String) (data : SdkResponse)
    (choice : Choice) : AIResponse :=
  { content := jsOr choice.content ""
    model := jsOr data.model requestedModel
    tokensUsed := jsOrNat (data.usage.bind Usage.totalTokens) 0
    promptTokens := jsOrNat (data.usage.bind Usage.promptTokens) 0
    completionTokens := jsOrNat (data.usage.bind Usage.completionTokens) 0 }

/-- The JSON body `chatCompletionFallback` sends to the REST endpoint for
one candidate model. -/
structure FetchBody where
  model : String
  messages : List Message
  max_tokens : Option Nat
  deriving DecidableEq, Repr

/-- Outcome of one REST `fetch` of the fallback loop:
`thrown` = the fetch / body read / JSON parse threw (message of the thrown
error); `httpError` = `!response.ok`, with status, parsed
`errorData.error?.message` and raw body text; `ok` = HTTP ok with parsed
body. -/
inductive FetchOutcome
  | thrown (msg : String)
  | httpError (status : Nat) (errMessage : Option String) (bodyText : String)
  | ok (data : SdkResponse)
  deriving DecidableEq, Repr

/-- The request body built inside the fallback loop for candidate `model`. -/
def mkFetchBody (req : AIRequest) (model : String) : FetchBody :=
  { model := model
    messages := req.messages
    max_tokens := jsTokenBound req.maxTokens }

/-- One iteration body of the fallback loop, as the `Except` it produces for
its candidate. A non-ok HTTP response throws
`OpenRouter API error (status): errorData.error?.message || responseText`;
an ok response without a first choice throws
`Invalid response from OpenRouter`; otherwise the normalized response is
returned. The `429 && i < last` `continue` in the source and the
catch-and-advance of a thrown error are observationally the same
(advance to the next candidate), so both are represented by the `.error`
result, which the loop below turns into advancement on a non-final
candidate. -/
def attemptOne (fetch : FetchBody → FetchOutcome) (req : AIRequest)
    (model : String) : Except String AIResponse :=
  match fetch (mkFetchBody req model) with
  | .thrown msg => .error msg
  | .httpError status errMessage bodyText =>
      .error ("OpenRouter API error (" ++ toString status ++ "): "
        ++ jsOr errMessage bodyText)
  | .ok data =>
      match data.choices with
      | [] => .error "Invalid response from OpenRouter"
      | choice :: _ => .ok (normalizeResponse model data choice)

/-- The `for` loop of `chatCompletionFallback`: first success wins; a
failure on the final candidate is rethrown as
`AI request failed: message`; the trailing
`AI request failed: All models exhausted` throw is reached only when the
candidate list is empty. -/
def fallbackLoop (fetch : FetchBody → FetchOutcome) (req : AIRequest) :
    List String → Except String AIResponse
  | [] => .error "AI request failed: All models exhausted"
  | model :: rest =>
    match attemptOne fetch req model with
    | .ok r => .ok r
    | .error e =>
      match rest with
      | [] => .error ("AI request failed: " ++ e)
      | _ :: _ => fallbackLoop fetch req rest

/-- The candidate models the fallback loop actually attempts (in order),
for the same loop semantics as `fallbackLoop`. -/
def attemptedModels (fetch : FetchBody → FetchOutcome) (req : AIRequest) :
    List String → List String
  | [] => []
  | model :: rest =>
    match attemptOne fetch req model with
    | .ok _ => [model]
    | .error _ => model :: attemptedModels fetch req rest

/-- `modelsToTry`: the free tier gets the fallback chain, every other tier
the single resolved model. -/
def candidateModels (tier : String) : List String :=
  if tier = "free" then FREE_MODEL_FALLBACKS else [getModelForTier tier]

/-- `chatCompletionFallback`: run the candidate loop over `modelsToTry`. -/
def chatCompletionFallback (fetch : FetchBody → FetchOutcome)
    (req : AIRequest) : Except String AIResponse :=
  fallbackLoop fetch req (candidateModels req.tier)

/-- Arguments of one `this.getClient().chat.send` call. -/
structure SdkCall where
  model : String
  messages : List Message
  maxTokens : Option Nat
  stream : Bool := false
  deriving DecidableEq, Repr

/-- The two transports as oracles: the SDK client and the REST fetch. -/
structure Env where
  primary : SdkCall → Except String SdkResponse
  fetch : FetchBody → FetchOutcome

/-- The SDK call `chatCompletion` issues. -/
def chatPrimaryCall (req : AIRequest) : SdkCall :=
  { model := getModelForTier req.tier
    messages := req.messages
    maxTokens := jsTokenBound req.maxTokens }

/-- Message of the TypeError raised by `response.choices[0].message` when
`choices` is empty (the exact host wording is immaterial to the claims). -/
def undefinedChoiceError : String :=
  "TypeError: cannot read message of undefined"

/-- `chatCompletion`: try the SDK path; any exception there (including the
TypeError on an empty choice list) drops into `chatCompletionFallback`. -/
def chatCompletion (env : Env) (req : AIRequest) : Except String AIResponse :=
  match env.primary (chatPrimaryCall req) with
  | .ok resp =>
    match resp.choices with
    | choice :: _ =>
        .ok (normalizeResponse (getModelForTier req.tier) resp choice)
    | [] => chatCompletionFallback env.fetch req
  | .error _ => chatCompletionFallback env.fetch req

/-- The system message `codeGeneration` prepends. -/
def codeSystemMessage : Message :=
  { role := "system"
    content := .text "You are an expert programmer. Generate clean, efficient, and well-documented code based on the user request. Include comments and follow best practices." }

/-- The request `codeGeneration` forwards to `chatCompletion`
(system message prepended, `maxTokens: request.maxTokens || 4000`). -/
def codeRequest (req : AIRequest) : AIRequest :=
  { req with
    messages := codeSystemMessage :: req.messages
    maxTokens := some (jsOrNat req.maxTokens 4000) }

/-- `codeGeneration`. -/
def codeGeneration (env : Env) (req : AIRequest) : Except String AIResponse :=
  chatCompletion env (codeRequest req)

/-- The system message `textAnalysis` prepends. -/
def analysisSystemMessage : Message :=
  { role := "system"
    content := .text "You are an expert text analyst. Analyze the provided text and provide insights, summaries, or answer questions about it. Be concise and accurate." }

/-- The request `textAnalysis` forwards to `chatCompletion`
(`maxTokens: request.maxTokens || 2000`). -/
def analyzeRequest (req : AIRequest) : AIRequest :=
  { req with
    messages := analysisSystemMessage :: req.messages
    maxTokens := some (jsOrNat req.maxTokens 2000) }

/-- `textAnalysis`. -/
def textAnalysis (env : Env) (req : AIRequest) : Except String AIResponse :=
  chatCompletion env (analyzeRequest req)

/-- The system message `contentGeneration` prepends. -/
def contentSystemMessage : Message :=
  { role := "system"
    content := .text "You are a creative content writer. Generate high-quality, engaging content based on user requirements. Be creative, original, and maintain the requested tone and style." }

/-- The request `contentGeneration` forwards to `chatCompletion`
(`maxTokens: request.maxTokens || 3000`). -/
def generateRequest (req : AIRequest) : AIRequest :=
  { req with
    messages := contentSystemMessage :: req.messages
    maxTokens := some (jsOrNat req.maxTokens 3000) }

/-- `contentGeneration`. -/
def contentGeneration (env : Env) (req : AIRequest) :
    Except String AIResponse :=
  chatCompletion env (generateRequest req)

/-- The `visionModels` record of `multimodalAnalysis`, as an own-property
lookup (exact for every tier string that is not an `Object.prototype`
member name, for the same reason as `TIER_MODELS` vs
`TIER_MODELS_access`). -/
def visionModels : String → Option String := fun tier =>
  if tier = "free" then some "google/gemini-2.0-flash-exp:free"
  else if tier = "premium" then some "openai/gpt-4o-mini"
  else if tier = "ultra-premium" then some "anthropic/claude-3.5-sonnet"
  else if tier = "enterprise" then some "anthropic/claude-3.7-sonnet"
  else none

/-- The SDK call `multimodalAnalysis` issues:
`visionModels[tier] || model`, and `maxTokens: request.maxTokens || 2000`
(always sent). -/
def visionPrimaryCall (req : AIRequest) : SdkCall :=
  { model := jsOr (visionModels req.tier) (getModelForTier req.tier)
    messages := req.messages
    maxTokens := some (jsOrNat req.maxTokens 2000) }

/-- `multimodalAnalysis`: the SDK path only; any exception is rethrown as
`Multimodal analysis failed: message` -- no fallback path is entered.
The `response.model || model` fallback identifier is the tier model, not
the vision model. -/
def multimodalAnalysis (env : Env) (req : AIRequest) :
    Except String AIResponse :=
  match env.primary (visionPrimaryCall req) with
  | .ok resp =>
    match resp.choices with
    | choice :: _ =>
        .ok (normalizeResponse (getModelForTier req.tier) resp choice)
    | [] => .error ("Multimodal analysis failed: " ++ undefinedChoiceError)
  | .error e => .error ("Multimodal analysis failed: " ++ e)

/-- `delta` object of one streamed choice. -/
structure StreamDelta where
  content : Option String
  deriving DecidableEq, Repr

/-- One choice of a streamed chunk. -/
structure StreamChoice where
  delta : Option StreamDelta
  deriving DecidableEq, Repr

/-- One chunk yielded by the provider stream. -/
structure ProviderChunk where
  choices : Option (List StreamChoice)
  deriving DecidableEq, Repr

/-- How the provider stream iteration ends: clean completion, or a fault
thrown by the iterator after the listed chunks were delivered. -/
inductive StreamEnd
  | done
  | fault (msg : String)
  deriving DecidableEq, Repr

/-- A provider stream: the chunks delivered in order, then its ending. -/
structure ProviderStream where
  chunks : List ProviderChunk
  ending : StreamEnd
  deriving DecidableEq, Repr

/-- One SSE frame written by the streaming branch of the chat route:
a content-delta frame `data: {"content": delta}` or the terminal sentinel
`data: [DONE]`. -/
inductive Frame
  | delta (content : String)
  | done
  deriving DecidableEq, Repr

/-- `chunk.choices?.[0]?.delta?.content` with optional chaining. -/
def chunkDelta (c : ProviderChunk) : Option String :=
  ((c.choices.bind List.head?).bind StreamChoice.delta).bind StreamDelta.content

/-- The frame (if any) the route writes for one chunk: only a truthy
(defined, nonempty) delta is written. -/
def chunkFrame (c : ProviderChunk) : Option Frame :=
  match chunkDelta c with
  | some d => if d = "" then none else some (Frame.delta d)
  | none => none

/-- The content-delta frames written for a chunk sequence, in order. -/
def deltaFrames (chunks : List ProviderChunk) : List Frame :=
  chunks.filterMap chunkFrame

/-- The frames the streaming branch of POST /api/ai/chat writes for a given
provider stream: one delta frame per truthy chunk delta; the sentinel
`data: [DONE]` is written only after the `for await` loop completes, so a
fault thrown during iteration (caught by the route's catch, which can no
longer emit frames once headers are sent) leaves the sentinel unwritten. -/
def chatStreamFrames (ps : ProviderStream) : List Frame :=
  deltaFrames ps.chunks ++
    (match ps.ending with
     | .done => [Frame.done]
     | .fault _ => [])

/-- The body of POST /api/ai/vision as read by the route handler. -/
structure VisionBody where
  prompt : Option String
  imageUrl : Option String
  imageBase64 : Option String
  tier : Option String
  deriving DecidableEq, Repr

/-- Outcome of the vision route handler before/at the dispatch boundary:
an early `res.status(400)` validation response, or the call into
`multimodalAnalysis` with the assembled messages (the only point a remote
call can happen). -/
inductive VisionOutcome
  | badRequest (status : Nat) (error : String)
  | dispatch (messages : List Message) (tier : String)
  deriving DecidableEq, Repr

/-- The validation and message assembly of POST /api/ai/vision: checks
`prompt`, then `imageUrl`/`imageBase64`, then `tier` (JS truthiness); the
image part uses `imageUrl` when truthy, else `imageBase64`. -/
def visionRoute (b : VisionBody) : VisionOutcome :=
  if jsTruthy b.prompt then
    if jsTruthy b.imageUrl || jsTruthy b.imageBase64 then
      if jsTruthy b.tier then
        .dispatch
          [{ role := "user"
             content := .parts
               [ContentPart.textPart (b.prompt.getD ""),
                if jsTruthy b.imageUrl then
                  ContentPart.imagePart (b.imageUrl.getD "")
                else
                  ContentPart.imagePart (b.imageBase64.getD "")] }]
          (b.tier.getD "")
      else .badRequest 400 "Tier is required"
    else .badRequest 400 "Image URL or base64 data is required"
  else .badRequest 400 "Prompt is required"

/-! Concrete fixtures used by the witness and counterexample theorems. -/

deriving instance DecidableEq for Except

/-- A one-message conversation. -/
def sampleUserMessage : Message := { role := "user", content := .text "hello" }

/-- A premium-tier request. -/
def reqPremium : AIRequest := { messages := [sampleUserMessage], tier := "premium" }

/-- A free-tier request. -/
def reqFree : AIRequest := { messages := [sampleUserMessage], tier := "free" }

/-- A request whose caller-supplied token bound is 0. -/
def reqZeroBound : AIRequest :=
  { messages := [sampleUserMessage], tier := "free", maxTokens := some 0 }

/-- An environment whose SDK client always throws and whose REST transport
always answers with one well-formed choice. -/
def envDownOkFallback : Env :=
  { primary := fun _ => .error "boom"
    fetch := fun _ =>
      .ok { choices := [{ content := some "recovered" }]
            model := none
            usage := none } }

/-- A REST transport that always throws a network error. -/
def fetchAllFail : FetchBody → FetchOutcome := fun _ => .thrown "ECONNRESET"

/-- A well-formed provider response reported by the second free candidate. -/
def dataHi : SdkResponse :=
  { choices := [{ content := some "hi" }]
    model := some "google/gemini-2.0-flash-exp:free"
    usage := none }

/-- A REST transport that rate-limits the first free candidate and answers
the rest with `dataHi`. -/
def fetch429ThenOk : FetchBody → FetchOutcome := fun b =>
  if b.model = "mistralai/mistral-7b-instruct:free" then
    .httpError 429 (some "Rate limit exceeded") "rate limited body"
  else .ok dataHi

/-- A well-formed provider response that omits content, model and usage. -/
def dataNoUsage : SdkResponse :=
  { choices := [{ content := none }], model := none, usage := none }

/-- A REST transport that always answers `dataNoUsage`. -/
def fetchNoUsage : FetchBody → FetchOutcome := fun _ => .ok dataNoUsage

/-- An environment whose SDK client always answers `dataNoUsage`. -/
def envPrimaryNoUsage : Env :=
  { primary := fun _ => .ok dataNoUsage
    fetch := fun _ => .thrown "unused" }

/-- A streamed chunk carrying the delta text "partial". -/
def chunkPartial : ProviderChunk :=
  { choices := some [{ delta := some { content := some "partial" } }] }

/-- A provider stream that yields one delta and then faults. -/
def streamPartialFault : ProviderStream :=
  { chunks := [chunkPartial]
    ending := .fault "connection reset" }

/-- A vision request body whose image URL is missing and whose inline image
data is the empty string. -/
def visionBodyMissingImage : VisionBody :=
  { prompt := some "describe"
    imageUrl := none
    imageBase64 := some ""
    tier := some "ultra-premium" }

/-- A vision request body supplying both a nonempty image URL and nonempty
inline image data. -/
def visionBodyBothImages : VisionBody :=
  { prompt := some "what is this"
    imageUrl := some "https://example.com/cat.png"
    imageBase64 := some "aGVsbG8="
    tier := some "enterprise" }

/-- Reduction: a successful attempt ends the loop at once. -/
theorem fallbackLoop_cons_ok {fetch : FetchBody → FetchOutcome}
    {req : AIRequest} {a : String} {r : AIResponse}
    (h : attemptOne fetch req a = .ok r) (l : List String) :
    fallbackLoop fetch req (a :: l) = .ok r := by
  cases l <;> simp [fallbackLoop, h]

/-- Reduction: a failed attempt on a non-final candidate advances the loop. -/
theorem fallbackLoop_cons_error {fetch : FetchBody → FetchOutcome}
    {req : AIRequest} {a : String} {e : String}
    (h : attemptOne fetch req a = .error e) (b : String) (l : List String) :
    fallbackLoop fetch req (a :: b :: l) = fallbackLoop fetch req (b :: l) := by
  simp [fallbackLoop, h]

/-- Reduction: a failed attempt on the final candidate is rethrown wrapped. -/
theorem fallbackLoop_single_error {fetch : FetchBody → FetchOutcome}
    {req : AIRequest} {a : String} {e : String}
    (h : attemptOne fetch req a = .error e) :
    fallbackLoop fetch req [a] = .error ("AI request failed: " ++ e) := by
  simp [fallbackLoop, h]

/-- Reduction: on success only the successful candidate is recorded. -/
theorem attemptedModels_cons_ok {fetch : FetchBody → FetchOutcome}
    {req : AIRequest} {a : String} {r : AIResponse}
    (h : attemptOne fetch req a = .ok r) (l : List String) :
    attemptedModels fetch req (a :: l) = [a] := by
  simp [attemptedModels, h]

/-- Reduction: on failure the candidate is recorded and the loop advances. -/
theorem attemptedModels_cons_error {fetch : FetchBody → FetchOutcome}
    {req : AIRequest} {a : String} {e : String}
    (h : attemptOne fetch req a = .error e) (l : List String) :
    attemptedModels fetch req (a :: l) = a :: attemptedModels fetch req l := by
  simp [attemptedModels, h]

/-- The loop over `l₁ ++ m :: l₂` where every candidate of `l₁` fails and
`m` succeeds returns the success of `m` and attempts exactly `l₁ ++ [m]`. -/
theorem fallbackLoop_first_success {fetch : FetchBody → FetchOutcome}
    {req : AIRequest} {r : AIResponse} :
    ∀ (l₁ : List String) (m : String) (l₂ : List String),
      (∀ x ∈ l₁, ∃ e, attemptOne fetch req x = .error e) →
      attemptOne fetch req m = .ok r →
      fallbackLoop fetch req (l₁ ++ m :: l₂) = .ok r ∧
        attemptedModels fetch req (l₁ ++ m :: l₂) = l₁ ++ [m] := by
  intro l₁
  induction l₁ with
  | nil =>
    intro m l₂ _ hok
    exact ⟨fallbackLoop_cons_ok hok l₂, attemptedModels_cons_ok hok l₂⟩
  | cons a t ih =>
    intro m l₂ hfail hok
    obtain ⟨e, he⟩ := hfail a (List.mem_cons_self a t)
    have hrest := ih m l₂ (fun x hx => hfail x (List.mem_cons_of_mem a hx)) hok
    have hshape : ∃ b l, t ++ m :: l₂ = b :: l := by
      cases t <;> exact ⟨_, _, rfl⟩
    obtain ⟨b, l, hb⟩ := hshape
    constructor
    · rw [List.cons_append, hb, fallbackLoop_cons_error he b l, ← hb]
      exact hrest.1
    · rw [List.cons_append, attemptedModels_cons_error he, hrest.2,
        List.cons_append]

/-- The loop over `l₁ ++ [m]` where every candidate fails ends with the
wrapped message of the final candidate. -/
theorem fallbackLoop_all_fail {fetch : FetchBody → FetchOutcome}
    {req : AIRequest} :
    ∀ (l₁ : List String) (m : String) (e : String),
      (∀ x ∈ l₁, ∃ e0, attemptOne fetch req x = .error e0) →
      attemptOne fetch req m = .error e →
      fallbackLoop fetch req (l₁ ++ [m]) = .error ("AI request failed: " ++ e) := by
  intro l₁
  induction l₁ with
  | nil =>
    intro m e _ hlast
    exact fallbackLoop_single_error hlast
  | cons a t ih =>
    intro m e hfail hlast
    obtain ⟨e0, he0⟩ := hfail a (List.mem_cons_self a t)
    have hshape : ∃ b l, t ++ [m] = b :: l := by
      cases t <;> exact ⟨_, _, rfl⟩
    obtain ⟨b, l, hb⟩ := hshape
    rw [List.cons_append, hb, fallbackLoop_cons_error he0 b l, ← hb]
    exact ih m e (fun x hx => hfail x (List.mem_cons_of_mem a hx)) hlast

/-- Counterexample for C5 as stated: the unrecognized tier value
"constructor" does not resolve to the free tier default model -- the JS
lookup finds the truthy inherited `Object.prototype.constructor`, and
`||` returns it. -/
theorem getModelForTier_prototype_key_cex :
    getModelForTierJs "constructor" = .protoMember "constructor" ∧
    getModelForTierJs "constructor" ≠ .ownString TIER_MODELS_free ∧
    "constructor" ≠ "free" ∧ "constructor" ≠ "premium" ∧
    "constructor" ≠ "ultra-premium" ∧ "constructor" ≠ "enterprise" := by
  refine ⟨?_, ?_, ?_, ?_, ?_, ?_⟩ <;> decide

/-- Claim C5 (amended): any tier string that is neither one of the four
recognized tiers nor an `Object.prototype` member name (the empty string,
a mistyped value such as "ultra", ...) resolves to the free tier default
model rather than failing; prototype member names instead yield the
inherited member. -/
theorem getModelForTier_unknown_nonproto_defaults_free (tier : String)
    (h1 : tier ≠ "free") (h2 : tier ≠ "premium")
    (h3 : tier ≠ "ultra-premium") (h4 : tier ≠ "enterprise")
    (h5 : tier ∉ objectPrototypeKeys) :
    getModelForTierJs tier = .ownString TIER_MODELS_free ∧
      getModelForTier tier = TIER_MODELS_free := by
  have hacc : TIER_MODELS_access tier = .undefined := by
    simp [TIER_MODELS_access, TIER_MODELS, h1, h2, h3, h4, h5]
  constructor
  · simp [getModelForTierJs, hacc, JsLookup.truthy]
  · simp [getModelForTier, TIER_MODELS, h1, h2, h3, h4, jsOr]

/-- Witness for C5 (amended) at the mistyped tier "ultra". -/
theorem getModelForTier_unknown_nonproto_defaults_free_witness :
    getModelForTierJs "ultra" = .ownString TIER_MODELS_free ∧
      getModelForTier "ultra" = TIER_MODELS_free :=
  getModelForTier_unknown_nonproto_defaults_free "ultra" (by decide)
    (by decide) (by decide) (by decide) (by decide)

/-- Claim C4: for every tier other than free the candidate list is exactly
the single resolved model, and the loop never attempts more than that one
model, whatever the fetch outcomes are. -/
theorem candidateModels_nonfree_singleton (fetch : FetchBody → FetchOutcome)
    (req : AIRequest) (h : req.tier ≠ "free") :
    candidateModels req.tier = [getModelForTier req.tier] ∧
      attemptedModels fetch req (candidateModels req.tier) =
        [getModelForTier req.tier] := by
  have hc : candidateModels req.tier = [getModelForTier req.tier] := by
    simp [candidateModels, h]
  refine ⟨hc, ?_⟩
  rw [hc]
  cases hA : attemptOne fetch req (getModelForTier req.tier) with
  | ok r => exact attemptedModels_cons_ok hA []
  | error e => rw [attemptedModels_cons_error hA []]; rfl

/-- Witness for C4: premium tier, a fetch that always throws. -/
theorem candidateModels_nonfree_singleton_witness :
    candidateModels "premium" = [getModelForTier "premium"] ∧
      attemptedModels (fun _ => FetchOutcome.thrown "down")
          { messages := [], tier := "premium" }
          (candidateModels "premium") = [getModelForTier "premium"] :=
  candidateModels_nonfree_singleton (fun _ => FetchOutcome.thrown "down")
    { messages := [], tier := "premium" } (by decide)

/-- Claim C3: for a free-tier request, candidates are tried strictly in the
configured fallback order. If every candidate before `m` fails (in
particular by rate-limiting: a 429 outcome is an `attemptOne` error) and
`m` returns a response with at least one completion choice, the loop
returns the normalization of that response at once; the attempted
candidates are exactly the failing initial segment followed by `m` (so
each failure at position i < last is followed by position i+1, the
remaining candidates `l₂` are never attempted), and no candidate is
attempted twice. -/
theorem chatCompletionFallback_free_order (fetch : FetchBody → FetchOutcome)
    (req : AIRequest) (data : SdkResponse) (choice : Choice)
    (rest : List Choice) (l₁ : List String) (m : String) (l₂ : List String)
    (htier : req.tier = "free")
    (hchain : FREE_MODEL_FALLBACKS = l₁ ++ m :: l₂)
    (hfail : ∀ x ∈ l₁, ∃ e, attemptOne fetch req x = .error e)
    (hfetch : fetch (mkFetchBody req m) = .ok data)
    (hchoices : data.choices = choice :: rest) :
    chatCompletionFallback fetch req = .ok (normalizeResponse m data choice) ∧
      attemptedModels fetch req FREE_MODEL_FALLBACKS = l₁ ++ [m] ∧
      (l₁ ++ [m]).Nodup := by
  have hok : attemptOne fetch req m = .ok (normalizeResponse m data choice) := by
    simp [attemptOne, hfetch, hchoices]
  have hmain := fallbackLoop_first_success l₁ m l₂ hfail hok
  refine ⟨?_, ?_, ?_⟩
  · unfold chatCompletionFallback
    have hcand : candidateModels req.tier = FREE_MODEL_FALLBACKS := by
      simp [candidateModels, htier]
    rw [hcand, hchain]
    exact hmain.1
  · rw [hchain]
    exact hmain.2
  · have hnd : FREE_MODEL_FALLBACKS.Nodup := by decide
    rw [hchain] at hnd
    rw [List.nodup_append] at hnd ⊢
    obtain ⟨h1, h2, hd⟩ := hnd
    refine ⟨h1, List.nodup_singleton m, ?_⟩
    intro a ha hb
    have ham : a = m := by simpa using hb
    subst ham
    exact hd ha (List.mem_cons_self a l₂)

/-- Witness for C3: the first free candidate rate-limits (429), the second
answers with a choice; the loop returns the second's normalization and
attempts exactly the first two candidates, each once. -/
theorem chatCompletionFallback_free_order_witness :
    chatCompletionFallback fetch429ThenOk reqFree =
      .ok (normalizeResponse "google/gemini-2.0-flash-exp:free" dataHi
        { content := some "hi" }) ∧
      attemptedModels fetch429ThenOk reqFree FREE_MODEL_FALLBACKS =
        ["mistralai/mistral-7b-instruct:free"] ++
          ["google/gemini-2.0-flash-exp:free"] ∧
      (["mistralai/mistral-7b-instruct:free"] ++
          ["google/gemini-2.0-flash-exp:free"]).Nodup :=
  chatCompletionFallback_free_order fetch429ThenOk reqFree dataHi
    { content := some "hi" } []
    ["mistralai/mistral-7b-instruct:free"]
    "google/gemini-2.0-flash-exp:free"
    ["nousresearch/hermes-3-llama-3.1-405b:free",
     "microsoft/phi-3-mini-128k-instruct:free"]
    rfl rfl
    (by
      intro x hx
      have hx0 : x = "mistralai/mistral-7b-instruct:free" := by simpa using hx
      subst hx0
      exact ⟨"OpenRouter API error (429): Rate limit exceeded", rfl⟩)
    rfl rfl

/-- Claim C2: when every candidate of the loop fails, the dispatch fails
with the exhaustion message that wraps the final candidate's underlying
error message, and that wrapped message differs from the raw
single-candidate error message. -/
theorem chatCompletionFallback_exhaustion (fetch : FetchBody → FetchOutcome)
    (req : AIRequest) (l₁ : List String) (m : String) (elast : String)
    (hchain : candidateModels req.tier = l₁ ++ [m])
    (hfail : ∀ x ∈ l₁, ∃ e, attemptOne fetch req x = .error e)
    (hlast : attemptOne fetch req m = .error elast) :
    chatCompletionFallback fetch req =
      .error ("AI request failed: " ++ elast) ∧
      "AI request failed: " ++ elast ≠ elast := by
  constructor
  · unfold chatCompletionFallback
    rw [hchain]
    exact fallbackLoop_all_fail l₁ m elast hfail hlast
  · intro hcontra
    have hlen := congrArg String.length hcontra
    rw [String.length_append] at hlen
    have h19 : ("AI request failed: " : String).length = 19 := rfl
    omega

/-- Witness for C2: all four free candidates fail with a network error;
the surfaced error is the wrapped exhaustion message. -/
theorem chatCompletionFallback_exhaustion_witness :
    chatCompletionFallback fetchAllFail reqFree =
      .error ("AI request failed: " ++ "ECONNRESET") ∧
      "AI request failed: " ++ "ECONNRESET" ≠ "ECONNRESET" :=
  chatCompletionFallback_exhaustion fetchAllFail reqFree
    ["mistralai/mistral-7b-instruct:free",
     "google/gemini-2.0-flash-exp:free",
     "nousresearch/hermes-3-llama-3.1-405b:free"]
    "microsoft/phi-3-mini-128k-instruct:free" "ECONNRESET"
    rfl (fun _ _ => ⟨"ECONNRESET", rfl⟩) rfl

/-- Claim C6: an accepted provider response (one with a first choice) is
normalized with every field present and typed: the dispatcher paths return
exactly `normalizeResponse`, whose content defaults to the empty string
when omitted, whose model is the provider-reported identifier when a
nonempty one is present and otherwise the requested candidate identifier,
and whose three token counters default to zero when the usage object or
the individual counters are absent. -/
theorem dispatcher_normalization_defaults (env : Env)
    (fetch : FetchBody → FetchOutcome) (req : AIRequest) (model : String)
    (data : SdkResponse) (choice : Choice) (rest : List Choice) :
    (fetch (mkFetchBody req model) = .ok data →
      data.choices = choice :: rest →
      attemptOne fetch req model = .ok (normalizeResponse model data choice)) ∧
    (env.primary (chatPrimaryCall req) = .ok data →
      data.choices = choice :: rest →
      chatCompletion env req =
        .ok (normalizeResponse (getModelForTier req.tier) data choice)) ∧
    (choice.content = none → (normalizeResponse model data choice).content = "") ∧
    (data.model = none → (normalizeResponse model data choice).model = model) ∧
    (∀ s, data.model = some s → s ≠ "" →
      (normalizeResponse model data choice).model = s) ∧
    (data.usage = none →
      (normalizeResponse model data choice).tokensUsed = 0 ∧
      (normalizeResponse model data choice).promptTokens = 0 ∧
      (normalizeResponse model data choice).completionTokens = 0) ∧
    (∀ u, data.usage = some u →
      (u.totalTokens = none → (normalizeResponse model data choice).tokensUsed = 0) ∧
      (u.promptTokens = none → (normalizeResponse model data choice).promptTokens = 0) ∧
      (u.completionTokens = none →
        (normalizeResponse model data choice).completionTokens = 0)) := by
  refine ⟨?_, ?_, ?_, ?_, ?_, ?_, ?_⟩
  · intro h1 h2
    simp [attemptOne, h1, h2]
  · intro h1 h2
    simp [chatCompletion, h1, h2]
  · intro h
    simp [normalizeResponse, h, jsOr]
  · intro h
    simp [normalizeResponse, h, jsOr]
  · intro s hs hne
    simp [normalizeResponse, hs, jsOr, hne]
  · intro h
    simp [normalizeResponse, h, jsOrNat]
  · intro u hu
    refine ⟨?_, ?_, ?_⟩ <;> intro h <;> simp [normalizeResponse, hu, h, jsOrNat]

/-- Witness for C6: a response with a choice but no content, model or usage
normalizes to empty content, the requested model, and zero counters, on
both transport paths. -/
theorem dispatcher_normalization_defaults_witness :
    attemptOne fetchNoUsage reqPremium "openai/gpt-4o-mini" =
      .ok (normalizeResponse "openai/gpt-4o-mini" dataNoUsage
        { content := none }) ∧
    chatCompletion envPrimaryNoUsage reqPremium =
      .ok (normalizeResponse (getModelForTier reqPremium.tier) dataNoUsage
        { content := none }) ∧
    (normalizeResponse "openai/gpt-4o-mini" dataNoUsage
        { content := none }).content = "" ∧
    (normalizeResponse "openai/gpt-4o-mini" dataNoUsage
        { content := none }).model = "openai/gpt-4o-mini" ∧
    (normalizeResponse "openai/gpt-4o-mini" dataNoUsage
        { content := none }).tokensUsed = 0 ∧
    (normalizeResponse "openai/gpt-4o-mini" dataNoUsage
        { content := none }).promptTokens = 0 ∧
    (normalizeResponse "openai/gpt-4o-mini" dataNoUsage
        { content := none }).completionTokens = 0 := by
  have h := dispatcher_normalization_defaults envPrimaryNoUsage fetchNoUsage
    reqPremium "openai/gpt-4o-mini" dataNoUsage { content := none } []
  have hz := h.2.2.2.2.2.1 rfl
  exact ⟨h.1 rfl rfl, h.2.1 rfl rfl, h.2.2.1 rfl, h.2.2.2.1 rfl,
    hz.1, hz.2.1, hz.2.2⟩

/-- Claim C10: a caller-supplied maximum-output-token bound of 0 is treated
as absent: the chat SDK call and the fallback REST body carry no bound at
all, while the capability wrappers substitute their defaults (code 4000,
analysis 2000, generation 3000, vision 2000). -/
theorem zero_token_bound_treated_absent (req : AIRequest) (model : String)
    (h : req.maxTokens = some 0) :
    (chatPrimaryCall req).maxTokens = none ∧
    (mkFetchBody req model).max_tokens = none ∧
    (codeRequest req).maxTokens = some 4000 ∧
    (analyzeRequest req).maxTokens = some 2000 ∧
    (generateRequest req).maxTokens = some 3000 ∧
    (visionPrimaryCall req).maxTokens = some 2000 := by
  refine ⟨?_, ?_, ?_, ?_, ?_, ?_⟩ <;>
    simp [chatPrimaryCall, mkFetchBody, codeRequest, analyzeRequest,
      generateRequest, visionPrimaryCall, jsTokenBound, jsOrNat, h]

/-- Witness for C10 at a concrete request with bound 0. -/
theorem zero_token_bound_treated_absent_witness :
    (chatPrimaryCall reqZeroBound).maxTokens = none ∧
    (mkFetchBody reqZeroBound "m").max_tokens = none ∧
    (codeRequest reqZeroBound).maxTokens = some 4000 ∧
    (analyzeRequest reqZeroBound).maxTokens = some 2000 ∧
    (generateRequest reqZeroBound).maxTokens = some 3000 ∧
    (visionPrimaryCall reqZeroBound).maxTokens = some 2000 :=
  zero_token_bound_treated_absent reqZeroBound "m" rfl

/-- Claim C1 (amended): on a primary SDK failure the chat dispatch -- and
the code, analysis and generation dispatches, which delegate to it -- fall
through to the secondary REST transport path; the vision/multimodal
dispatch does not fall through: it fails immediately with the wrapped
primary error. -/
theorem primary_failure_falls_back (env : Env) (req : AIRequest) (e : String) :
    (env.primary (chatPrimaryCall req) = .error e →
      chatCompletion env req = chatCompletionFallback env.fetch req) ∧
    (env.primary (chatPrimaryCall (codeRequest req)) = .error e →
      codeGeneration env req = chatCompletionFallback env.fetch (codeRequest req)) ∧
    (env.primary (chatPrimaryCall (analyzeRequest req)) = .error e →
      textAnalysis env req = chatCompletionFallback env.fetch (analyzeRequest req)) ∧
    (env.primary (chatPrimaryCall (generateRequest req)) = .error e →
      contentGeneration env req =
        chatCompletionFallback env.fetch (generateRequest req)) ∧
    (env.primary (visionPrimaryCall req) = .error e →
      multimodalAnalysis env req =
        .error ("Multimodal analysis failed: " ++ e)) := by
  refine ⟨?_, ?_, ?_, ?_, ?_⟩ <;> intro h <;>
    simp [chatCompletion, codeGeneration, textAnalysis, contentGeneration,
      multimodalAnalysis, h]

/-- Witness for C1 (amended): an environment whose SDK always throws. -/
theorem primary_failure_falls_back_witness :
    chatCompletion envDownOkFallback reqPremium =
      chatCompletionFallback envDownOkFallback.fetch reqPremium ∧
    codeGeneration envDownOkFallback reqPremium =
      chatCompletionFallback envDownOkFallback.fetch (codeRequest reqPremium) ∧
    textAnalysis envDownOkFallback reqPremium =
      chatCompletionFallback envDownOkFallback.fetch (analyzeRequest reqPremium) ∧
    contentGeneration envDownOkFallback reqPremium =
      chatCompletionFallback envDownOkFallback.fetch (generateRequest reqPremium) ∧
    multimodalAnalysis envDownOkFallback reqPremium =
      .error ("Multimodal analysis failed: " ++ "boom") := by
  have h := primary_failure_falls_back envDownOkFallback reqPremium "boom"
  exact ⟨h.1 rfl, h.2.1 rfl, h.2.2.1 rfl, h.2.2.2.1 rfl, h.2.2.2.2 rfl⟩

/-- Counterexample for C1 as stated: with the SDK down and the REST
transport healthy, the vision dispatch does not fall through to the
secondary path -- it returns the wrapped primary error even though the
secondary path would have returned a well-formed response for the very
same request. -/
theorem multimodalAnalysis_no_fallback_cex :
    multimodalAnalysis envDownOkFallback reqPremium =
      .error "Multimodal analysis failed: boom" ∧
    chatCompletionFallback envDownOkFallback.fetch reqPremium =
      .ok { content := "recovered", model := "openai/gpt-4o-mini",
            tokensUsed := 0, promptTokens := 0, completionTokens := 0 } := by
  constructor <;> rfl

/-- Every frame produced for a chunk is a content-delta frame. -/
theorem deltaFrames_all_delta (chunks : List ProviderChunk) :
    ∀ f ∈ deltaFrames chunks, ∃ s, f = Frame.delta s := by
  intro f hf
  obtain ⟨c, _, hcf⟩ := List.mem_filterMap.mp hf
  unfold chunkFrame at hcf
  cases hd : chunkDelta c with
  | none => rw [hd] at hcf; simp at hcf
  | some d =>
    rw [hd] at hcf
    by_cases hde : d = ""
    · simp [hde] at hcf
    · simp [hde] at hcf
      exact ⟨d, hcf.symm⟩

/-- Claim C7 (amended): a streaming chat request whose provider stream is
consumed to completion without fault emits zero or more content-delta
frames followed by exactly one terminal sentinel frame, including when the
stream yields zero deltas; a mid-stream fault leaves the already-emitted
delta frames without a sentinel. -/
theorem chatStream_clean_frames (chunks : List ProviderChunk) :
    chatStreamFrames { chunks := chunks, ending := .done } =
      deltaFrames chunks ++ [Frame.done] ∧
    (chatStreamFrames { chunks := chunks, ending := .done }).count Frame.done = 1 ∧
    ∀ f ∈ deltaFrames chunks, ∃ s, f = Frame.delta s := by
  refine ⟨rfl, ?_, deltaFrames_all_delta chunks⟩
  have hzero : (deltaFrames chunks).count Frame.done = 0 := by
    rw [List.count_eq_zero]
    intro hmem
    obtain ⟨s, hs⟩ := deltaFrames_all_delta chunks Frame.done hmem
    exact Frame.noConfusion hs
  show (deltaFrames chunks ++ [Frame.done]).count Frame.done = 1
  rw [List.count_append, hzero]
  rfl

/-- Witness for C7 (amended) at the zero-delta stream. -/
theorem chatStream_clean_frames_witness :
    chatStreamFrames { chunks := [], ending := .done } =
      deltaFrames [] ++ [Frame.done] ∧
    (chatStreamFrames { chunks := [], ending := .done }).count Frame.done = 1 :=
  ⟨(chatStream_clean_frames []).1, (chatStream_clean_frames []).2.1⟩

/-- Counterexample for C7 as stated: a provider stream that yields one
delta and then faults makes the route emit the delta frame and zero
sentinel frames -- not exactly one. -/
theorem chatStream_fault_no_sentinel_cex :
    chatStreamFrames streamPartialFault = [Frame.delta "partial"] ∧
    (chatStreamFrames streamPartialFault).count Frame.done = 0 := by
  constructor <;> rfl

/-- Claim C8: a vision request in which both image fields are absent (by JS
truthiness: missing or empty) is answered by an early 400 validation
response -- the one for the image fields, or the one for a missing prompt
-- and never reaches the dispatch into `multimodalAnalysis`. -/
theorem visionRoute_missing_image_400 (b : VisionBody)
    (h1 : jsTruthy b.imageUrl = false) (h2 : jsTruthy b.imageBase64 = false) :
    (visionRoute b = .badRequest 400 "Prompt is required" ∨
      visionRoute b = .badRequest 400 "Image URL or base64 data is required") ∧
    ∀ msgs tier, visionRoute b ≠ .dispatch msgs tier := by
  cases hp : jsTruthy b.prompt
  · exact ⟨Or.inl (by simp [visionRoute, hp]),
      fun msgs tier => by simp [visionRoute, hp]⟩
  · exact ⟨Or.inr (by simp [visionRoute, hp, h1, h2]),
      fun msgs tier => by simp [visionRoute, hp, h1, h2]⟩

/-- Witness for C8: prompt and tier supplied, image URL missing and inline
image empty. -/
theorem visionRoute_missing_image_400_witness :
    visionRoute visionBodyMissingImage = .badRequest 400 "Prompt is required" ∨
    visionRoute visionBodyMissingImage =
      .badRequest 400 "Image URL or base64 data is required" :=
  (visionRoute_missing_image_400 visionBodyMissingImage rfl rfl).1

/-- Claim C9: when both a nonempty image URL and nonempty inline image data
are supplied, the assembled user message carries the text part and an
image part holding the URL; the inline data does not occur in the result
(the right-hand side does not mention it). -/
theorem visionRoute_url_precedence (p url b64 t : String)
    (hp : p ≠ "") (hurl : url ≠ "") (_hb64 : b64 ≠ "") (ht : t ≠ "") :
    visionRoute { prompt := some p, imageUrl := some url, imageBase64 := some b64, tier := some t } =
      .dispatch [⟨"user", .parts [ContentPart.textPart p, ContentPart.imagePart url]⟩] t := by
  simp [visionRoute, jsTruthy, bne_iff_ne, hp, hurl, ht]

/-- Witness for C9 at concrete nonempty fields. -/
theorem visionRoute_url_precedence_witness :
    visionRoute visionBodyBothImages =
      .dispatch [⟨"user", .parts [ContentPart.textPart "what is this", ContentPart.imagePart "https://example.com/cat.png"]⟩] "enterprise" :=
  visionRoute_url_precedence "what is this" "https://example.com/cat.png"
    "aGVsbG8=" "enterprise" (by decide) (by decide) (by decide) (by decide)
